import Mathlib

/-!
Shallow embedding of the resilient-request / retry / polling / token-cache /
authentication-exchange core of the OutSystems MCP server
(`src/utils/apiClient.ts`, `src/services/token-manager.ts`,
`src/utils/getOutsystemsToken.ts`, the Cloudflare-Workers auth variant, and
`src/services/outsystems-api.ts`).

Modelling conventions:
* JavaScript exceptions are modelled by the inductive `JsError`; a function
  that can throw returns `Except JsError _`.
* `async` functions are modelled as pure functions whose remote interactions
  are supplied as explicit inputs (a poll function indexed by attempt, an
  environment of step outcomes for the auth exchange, ...); the trace of a
  run (number of calls, slept delays, final outcome) is returned explicitly.
* JavaScript numbers used for backoff intervals are modelled by `ℚ`
  (`interval * 1.5` stays exact for the magnitudes involved); epoch seconds
  by `ℤ`; attempt counters by `ℕ`.
* Loops of the form `while (attempt < max)` are modelled by structural
  recursion on the remaining number of iterations.
-/

/-- The error values thrown by the TypeScript sources: `ApiError` (status,
endpoint, raw body), `TimeoutError`, the `SyntaxError` produced by
`response.json()` on a non-JSON body, and plain `new Error(message)`. -/
inductive JsError where
  | apiError (status : Nat) (endpoint : String) (body : String)
  | timeoutError (endpoint : String) (timeoutMs : Nat)
  | jsonParseError
  | genericError (msg : String)
  deriving Repr, DecidableEq

/-- The `message` property of each error, as built by the constructors in
`apiClient.ts` (`ApiError`, `TimeoutError`) and by `new Error(msg)`. -/
def JsError.message : JsError → String
  | .apiError status endpoint _ =>
      "API request failed: " ++ toString status ++ " on " ++ endpoint
  | .timeoutError endpoint timeoutMs =>
      "Request timeout after " ++ toString timeoutMs ++ "ms on " ++ endpoint
  | .jsonParseError => "Unexpected end of JSON input"
  | .genericError msg => msg

/-- `sanitizeErrorMessage` from `src/utils/apiClient.ts`: maps any error to
one of six fixed user-facing strings, by error category only. -/
def sanitizeErrorMessage : JsError → String
  | .timeoutError _ _ => "The request timed out. Please try again."
  | .apiError status _ _ =>
      if status = 401 ∨ status = 403 then
        "Authentication failed. Please check your credentials."
      else if status = 429 then
        "Rate limit exceeded. Please try again in a few moments."
      else if 500 ≤ status then
        "The service is temporarily unavailable. Please try again later."
      else
        "An error occurred while processing your request. Please try again."
  | _ => "An unexpected error occurred. Please try again."

/-- The final progress string emitted by `createAndDeployApp`'s `catch`
block (`outsystems-api.ts` line 336): `` yield `❌ ${sanitizedMessage}` ``. -/
def createAndDeployAppErrorYield (e : JsError) : String :=
  "❌ " ++ sanitizeErrorMessage e

/-- The fixed set of final error strings `createAndDeployApp` can emit:
the six constants of `sanitizeErrorMessage` under the `❌ ` prefix. -/
def finalErrorYields : List String :=
  [ "❌ The request timed out. Please try again."
  , "❌ Authentication failed. Please check your credentials."
  , "❌ Rate limit exceeded. Please try again in a few moments."
  , "❌ The service is temporarily unavailable. Please try again later."
  , "❌ An error occurred while processing your request. Please try again."
  , "❌ An unexpected error occurred. Please try again." ]

/-! ## Poll engine (`pollWithBackoff`, `src/utils/apiClient.ts` lines 130-172)

The poll function is modelled as `ℕ → T`: the result the remote returns to
the `attempts`-th call of `pollFn()`. The trace records, in order, the
attempt indices at which `pollFn` was called and the intervals slept. -/

/-- Options object of `pollWithBackoff` (defaults from the source). -/
structure PollOptions where
  maxAttempts : Nat := 60
  initialInterval : ℚ := 2000
  maxInterval : ℚ := 30000

/-- How a `pollWithBackoff` run ends: the result returned when `checkFn`
fired, the failing snapshot embedded in the `Polling failed with result: ...`
error when `failFn` fired, or the `Polling timeout after n attempts` error
carrying the final attempt counter. -/
inductive PollOutcome (T : Type) where
  | success (result : T)
  | failure (result : T)
  | timeout (attempts : Nat)
  deriving Repr, DecidableEq

/-- Trace of one `pollWithBackoff` run: outcome, the attempt indices at which
`pollFn()` was called, and the sleep intervals awaited, in order. -/
structure PollTrace (T : Type) where
  outcome : PollOutcome T
  calls : List Nat
  sleeps : List ℚ
  deriving Repr, DecidableEq

/-- The `while (attempts < maxAttempts)` loop of `pollWithBackoff`,
by recursion on the remaining iterations (`fuel = maxAttempts - attempts`).
Each iteration calls `pollFn` once, checks `checkFn` then `failFn`, and
otherwise sleeps `interval` and updates it to
`Math.min(interval * 1.5, maxInterval)`. -/
def pollGo {T : Type} (pollFn : Nat → T) (checkFn failFn : T → Bool)
    (maxInterval : ℚ) : Nat → Nat → ℚ → PollTrace T
  | 0, attempts, _ => ⟨.timeout attempts, [], []⟩
  | fuel + 1, attempts, interval =>
      let result := pollFn attempts
      if checkFn result then ⟨.success result, [attempts], []⟩
      else if failFn result then ⟨.failure result, [attempts], []⟩
      else
        let rest := pollGo pollFn checkFn failFn maxInterval fuel
          (attempts + 1) (min (interval * (3 / 2)) maxInterval)
        ⟨rest.outcome, attempts :: rest.calls, interval :: rest.sleeps⟩

/-- `pollWithBackoff(pollFn, checkFn, failFn, options)` from
`src/utils/apiClient.ts`: starts with `interval = initialInterval`,
`attempts = 0`. -/
def pollWithBackoff {T : Type} (pollFn : Nat → T) (checkFn failFn : T → Bool)
    (options : PollOptions) : PollTrace T :=
  pollGo pollFn checkFn failFn options.maxInterval options.maxAttempts 0
    options.initialInterval

/-- The message of the `Error` a poll outcome throws, if any
(`stringify` stands for `JSON.stringify`): the failure error embeds the
failing snapshot, the timeout error names the attempt count. -/
def PollOutcome.thrownErrorMessage {T : Type} (stringify : T → String) :
    PollOutcome T → Option String
  | .success _ => none
  | .failure r => some ("Polling failed with result: " ++ stringify r)
  | .timeout n => some ("Polling timeout after " ++ toString n ++ " attempts")

/-! ## Retry engine (`withRetry`, `src/utils/apiClient.ts` lines 90-125)

The operation is modelled as `ℕ → Except JsError T`: the outcome of its
`attempt`-th invocation. `maxRetries` is an `ℤ` so that the non-positive case
of the `for (let attempt = 0; attempt < maxRetries; ...)` loop is captured. -/

/-- The non-retryable classification inside `withRetry`'s catch:
`error instanceof ApiError && 400 <= status < 500 && status !== 429`. -/
def isNonRetryable : JsError → Bool
  | .apiError status _ _ => 400 ≤ status && status < 500 && status ≠ 429
  | _ => false

/-- Trace of one `withRetry` run: the returned value or thrown error
(`Except.error none` models the final `throw lastError!` reached with
`lastError` still uninitialized, i.e. throwing `undefined`, which is not an
`Error` object), the number of invocations of the operation, and the delays
awaited between attempts, in order. -/
structure RetryTrace (T : Type) where
  result : Except (Option JsError) T
  calls : Nat
  delays : List Nat
  deriving Repr

/-- The `for` loop of `withRetry`, by recursion on the remaining iterations.
On an error: re-throw immediately if non-retryable; re-throw if this was the
last attempt (`attempt === maxRetries - 1`, i.e. one iteration of fuel
left); otherwise sleep `initialDelay * 2 ** attempt` and continue. -/
def withRetryGo {T : Type} (fn : Nat → Except JsError T) (initialDelay : Nat) :
    Nat → Nat → Option JsError → RetryTrace T
  | 0, _, lastError => ⟨.error lastError, 0, []⟩
  | fuel + 1, attempt, _ =>
      match fn attempt with
      | .ok v => ⟨.ok v, 1, []⟩
      | .error e =>
          if isNonRetryable e then ⟨.error (some e), 1, []⟩
          else if fuel = 0 then ⟨.error (some e), 1, []⟩
          else
            let rest := withRetryGo fn initialDelay fuel (attempt + 1) (some e)
            ⟨rest.result, rest.calls + 1, initialDelay * 2 ^ attempt :: rest.delays⟩

/-- `withRetry(fn, maxRetries = 3, initialDelay = 1000)` from
`src/utils/apiClient.ts`. -/
def withRetry {T : Type} (fn : Nat → Except JsError T)
    (maxRetries : Int := 3) (initialDelay : Nat := 1000) : RetryTrace T :=
  withRetryGo fn initialDelay maxRetries.toNat 0 none

/-! ## Token cache (`getValidOutSystemsToken`, `src/services/token-manager.ts`)

The module-level mutable `cachedToken` is threaded explicitly; the inner
`getOutsystemsToken()` exchange is supplied as an input outcome. -/

/-- The `CachedToken` entry: token string and absolute expiry in epoch
seconds. -/
structure CachedToken where
  token : String
  expiresAt : Int
  deriving Repr, DecidableEq

/-- The `TokenResponse` returned by `getOutsystemsToken()`: the access token
and its lifetime in seconds. -/
structure TokenResponse where
  token : String
  expiresIn : Int
  deriving Repr, DecidableEq

/-- `TOKEN_EXPIRY_BUFFER_SECONDS = 300` from `token-manager.ts`. -/
def TOKEN_EXPIRY_BUFFER_SECONDS : Int := 300

/-- Result of one `getValidOutSystemsToken()` call: the returned token or
propagated error, the cache slot after the call, and how many full
authentication exchanges (`getOutsystemsToken()` invocations) were made. -/
structure TokenManagerResult where
  result : Except JsError String
  cache : Option CachedToken
  exchanges : Nat
  deriving Repr

/-- The cache-miss path of `getValidOutSystemsToken`: await the exchange; on
success cache `{ token, expiresAt := nowInSeconds + expiresIn }` and return
the token; a thrown error propagates before any assignment to the cache. -/
def tokenFetchNew (cachedToken : Option CachedToken) (nowInSeconds : Int)
    (exchange : Except JsError TokenResponse) : TokenManagerResult :=
  match exchange with
  | .ok r => ⟨.ok r.token, some ⟨r.token, nowInSeconds + r.expiresIn⟩, 1⟩
  | .error e => ⟨.error e, cachedToken, 1⟩

/-- `getValidOutSystemsToken()` from `src/services/token-manager.ts`:
if `cachedToken && cachedToken.expiresAt > nowInSeconds +
TOKEN_EXPIRY_BUFFER_SECONDS`, return the cached token without any exchange;
otherwise perform one exchange. -/
def getValidOutSystemsToken (cachedToken : Option CachedToken)
    (nowInSeconds : Int) (exchange : Except JsError TokenResponse) :
    TokenManagerResult :=
  match cachedToken with
  | some c =>
      if nowInSeconds + TOKEN_EXPIRY_BUFFER_SECONDS < c.expiresAt then
        ⟨.ok c.token, some c, 0⟩
      else tokenFetchNew cachedToken nowInSeconds exchange
  | none => tokenFetchNew cachedToken nowInSeconds exchange

/-! ## Authentication exchange (`src/utils/getOutsystemsToken.ts`)

The seven-step OIDC/PKCE/SRP exchange is modelled over an environment of
remote step outcomes; what matters for the specification is the sequencing,
the explicit in-step `throw`s, the `expires_in || 3600` fallback, and the
catch-all that converts any step failure into the generic
`"OutSystems authentication failed."` error while logging the cause. -/

/-- JavaScript `x || d` on a possibly-absent number: `undefined` and `0` are
falsy. Models `tokenResponse.data.expires_in || 3600`. -/
def jsOrElseInt (v : Option Int) (d : Int) : Int :=
  match v with
  | none => d
  | some x => if x = 0 then d else x

/-- Outcomes of the remote interactions of `getOutsystemsToken`
(Node variant), one field per awaited step, in program order:
OIDC discovery; the authorization page redirect (its final response URL's
`state`, `redirect_uri` (kcUri) and `client_id` query parameters, each
possibly absent); the Cognito SRP login (tenant-config fetch +
`authenticateUser`); the `store-token` POST (`authCode`); the Keycloak
code-exchange GET (the `code` parameter of the redirect `Location`,
possibly absent); and the token-endpoint POST (`access_token` and an
optional `expires_in`). -/
structure AuthEnv where
  oidcConfig : Except JsError (String × String)
  authPage : Except JsError (Option String × Option String × Option String)
  haveEnvVars : Bool
  cognito : Except JsError (String × String × String)
  storeToken : Except JsError String
  keycloak : Except JsError (Option String)
  tokenEndpoint : Except JsError (String × Option Int)

/-- The `try` block of `getOutsystemsToken` (Node variant,
`src/utils/getOutsystemsToken.ts` lines 57-164): run the seven steps in
order, with the source's explicit throws for missing `state`/`kcUri`/
`clientPoolId`, missing environment variables, and a missing final `code`;
on full success return the access token with `expires_in || 3600`. -/
def getOutsystemsTokenSteps (env : AuthEnv) : Except JsError TokenResponse := do
  let _endpoints ← env.oidcConfig
  let params ← env.authPage
  match params with
  | (some _, some _, some _) => pure ()
  | _ => throw (.genericError
      "Failed to retrieve state, kcUri, or clientPoolId from auth page.")
  if !env.haveEnvVars then
    throw (.genericError "Missing required environment variables.")
  let _cognitoTokens ← env.cognito
  let _authCode ← env.storeToken
  let finalCode ← env.keycloak
  match finalCode with
  | none => throw (.genericError
      "Failed to retrieve final authorization code from Keycloak redirect.")
  | some _ => pure ()
  let tokenData ← env.tokenEndpoint
  pure ⟨tokenData.1, jsOrElseInt tokenData.2 3600⟩

/-- Result of `getOutsystemsToken`: the value returned or error thrown to
the caller, plus what was handed to `logger.error` internally (the
underlying cause; `none` on success). -/
structure AuthResult where
  result : Except JsError TokenResponse
  loggedCause : Option JsError
  deriving Repr

/-- `getOutsystemsToken` (Node variant): the catch block logs the cause
(`error.response?.data || error`) and throws
`new Error("OutSystems authentication failed.")`. -/
def getOutsystemsToken (env : AuthEnv) : AuthResult :=
  match getOutsystemsTokenSteps env with
  | .ok r => ⟨.ok r, none⟩
  | .error e => ⟨.error (.genericError "OutSystems authentication failed."), some e⟩

/-- The InitiateAuth HTTP response consumed by the Workers variant's
`cognitoLogin`: `ok`/`statusText` of the response and the parsed
`AuthenticationResult` (IdToken, AccessToken, RefreshToken), when present. -/
structure CognitoAuthResponse where
  ok : Bool
  statusText : String
  authenticationResult : Option (String × String × String)

/-- Outcomes of the remote interactions of the Cloudflare-Workers variant of
`getOutsystemsToken`. `keycloak` carries the `Location` header of the
code-exchange response (`none` = header absent) and, when present, the
`code` query parameter parsed from it (`none` = parameter absent). -/
structure WorkerAuthEnv where
  oidcConfig : Except JsError (String × String)
  authPage : Except JsError (Option String × Option String × Option String)
  cognitoTenantConfig : Except JsError Unit
  cognitoAuth : Except JsError CognitoAuthResponse
  storeToken : Except JsError String
  keycloak : Except JsError (Option (Option String))
  tokenEndpoint : Except JsError (String × Option Int)

/-- `cognitoLogin` of the Workers variant: fetch the tenant config, POST
InitiateAuth; a non-ok response throws
`` `Cognito authentication failed: ${authResponse.statusText}` ``; a missing
`AuthenticationResult` throws
`'Cognito authentication failed: No authentication result'`. -/
def workerCognitoLogin (env : WorkerAuthEnv) :
    Except JsError (String × String × String) := do
  let _ ← env.cognitoTenantConfig
  let resp ← env.cognitoAuth
  if !resp.ok then
    throw (.genericError ("Cognito authentication failed: " ++ resp.statusText))
  match resp.authenticationResult with
  | none => throw (.genericError "Cognito authentication failed: No authentication result")
  | some toks => pure toks

/-- The `try` block of the Workers variant of `getOutsystemsToken`: same
step sequence as the Node variant, with the variant's extra explicit throw
for a missing Keycloak `Location` header. -/
def getOutsystemsTokenWorkerSteps (env : WorkerAuthEnv) :
    Except JsError TokenResponse := do
  let _endpoints ← env.oidcConfig
  let params ← env.authPage
  match params with
  | (some _, some _, some _) => pure ()
  | _ => throw (.genericError
      "Failed to retrieve state, kcUri, or clientPoolId from auth page.")
  let _cognitoTokens ← workerCognitoLogin env
  let _authCode ← env.storeToken
  let location ← env.keycloak
  match location with
  | none => throw (.genericError "Failed to get redirect location from Keycloak")
  | some none => throw (.genericError
      "Failed to retrieve final authorization code from Keycloak redirect.")
  | some (some _) => pure ()
  let tokenData ← env.tokenEndpoint
  pure ⟨tokenData.1, jsOrElseInt tokenData.2 3600⟩

/-- The Workers variant of `getOutsystemsToken`: its catch block logs the
cause and throws
`new Error("OutSystems authentication failed: " + error.message)` — the
underlying error's message is appended to the raised error. -/
def getOutsystemsTokenWorker (env : WorkerAuthEnv) : AuthResult :=
  match getOutsystemsTokenWorkerSteps env with
  | .ok r => ⟨.ok r, none⟩
  | .error e =>
      ⟨.error (.genericError ("OutSystems authentication failed: " ++ e.message)),
       some e⟩

/-! ## Request client (`OutSystemsApiClient.request`, `src/utils/apiClient.ts`)

The response handling is modelled over the raw HTTP response; the body text
is parsed by a JSON parser mirroring `response.json()`: an empty (or
otherwise non-JSON) body makes it reject, and the resulting `SyntaxError`
is not caught by `request`'s `AbortError` handler. -/

/-- JSON values, as produced by `response.json()` / `JSON.parse`. -/
inductive Json where
  | null
  | bool (b : Bool)
  | num (n : Int)
  | str (s : String)
  | arr (elems : List Json)
  | obj (fields : List (String × Json))
  deriving Repr

/-- Skip JSON whitespace. -/
def skipWs : List Char → List Char
  | c :: cs =>
      if c = ' ' ∨ c = '\t' ∨ c = '\n' ∨ c = '\r' then skipWs cs else c :: cs
  | [] => []

/-- Accumulate a run of leading decimal digits. -/
def takeDigits (acc : Nat) : List Char → Nat × List Char
  | c :: cs =>
      if c.isDigit then takeDigits (acc * 10 + (c.toNat - 48)) cs
      else (acc, c :: cs)
  | [] => (acc, [])

/-- Parse a non-empty run of decimal digits. -/
def parseNatNum : List Char → Option (Nat × List Char)
  | c :: cs => if c.isDigit then some (takeDigits 0 (c :: cs)) else none
  | [] => none

/-- Parse the remainder of a JSON string after the opening quote; a
backslash escapes the following character verbatim (a faithful subset: the
multi-character escapes of full JSON are not decoded, which no claim
depends on). -/
def parseStrBody (acc : List Char) : List Char → Option (String × List Char)
  | [] => none
  | c :: cs =>
      if c = '"' then some (String.mk acc.reverse, cs)
      else if c = '\\' then
        match cs with
        | [] => none
        | d :: ds => parseStrBody (d :: acc) ds
      else parseStrBody (c :: acc) cs

mutual

/-- Fuel-bounded recursive-descent parser for a JSON value (integers only
among numbers — the payloads exchanged by this client). Returns the value
and the unconsumed input. -/
def parseJsonValue : Nat → List Char → Option (Json × List Char)
  | 0, _ => none
  | fuel + 1, cs =>
      match skipWs cs with
      | 'n' :: 'u' :: 'l' :: 'l' :: rest => some (.null, rest)
      | 't' :: 'r' :: 'u' :: 'e' :: rest => some (.bool true, rest)
      | 'f' :: 'a' :: 'l' :: 's' :: 'e' :: rest => some (.bool false, rest)
      | '"' :: rest =>
          match parseStrBody [] rest with
          | some (s, rest') => some (.str s, rest')
          | none => none
      | '-' :: rest =>
          match parseNatNum rest with
          | some (n, rest') => some (.num (-(n : Int)), rest')
          | none => none
      | '[' :: rest =>
          (match skipWs rest with
           | ']' :: rest' => some (.arr [], rest')
           | other =>
               match parseJsonElems fuel other with
               | some (elems, rest') => some (.arr elems, rest')
               | none => none)
      | '{' :: rest =>
          (match skipWs rest with
           | '}' :: rest' => some (.obj [], rest')
           | other =>
               match parseJsonFields fuel other with
               | some (fields, rest') => some (.obj fields, rest')
               | none => none)
      | c :: rest =>
          if c.isDigit then
            match parseNatNum (c :: rest) with
            | some (n, rest') => some (.num (n : Int), rest')
            | none => none
          else none
      | [] => none

/-- Parse one or more comma-separated array elements up to `]`. -/
def parseJsonElems : Nat → List Char → Option (List Json × List Char)
  | 0, _ => none
  | fuel + 1, cs =>
      match parseJsonValue fuel cs with
      | none => none
      | some (v, rest) =>
          match skipWs rest with
          | ']' :: rest' => some ([v], rest')
          | ',' :: rest' =>
              match parseJsonElems fuel rest' with
              | some (vs, rest'') => some (v :: vs, rest'')
              | none => none
          | _ => none

/-- Parse one or more comma-separated `"key": value` fields up to `}`. -/
def parseJsonFields : Nat → List Char → Option (List (String × Json) × List Char)
  | 0, _ => none
  | fuel + 1, cs =>
      match skipWs cs with
      | '"' :: rest =>
          (match parseStrBody [] rest with
           | none => none
           | some (key, rest') =>
               match skipWs rest' with
               | ':' :: rest'' =>
                   (match parseJsonValue fuel rest'' with
                    | none => none
                    | some (v, rest3) =>
                        match skipWs rest3 with
                        | '}' :: rest4 => some ([(key, v)], rest4)
                        | ',' :: rest4 =>
                            (match parseJsonFields fuel rest4 with
                             | some (fs, rest5) => some ((key, v) :: fs, rest5)
                             | none => none)
                        | _ => none)
               | _ => none)
      | _ => none

end

/-- `JSON.parse` / `response.json()` on a body text: parse one JSON value
with nothing but whitespace around it. The empty body is not valid JSON. -/
def jsonParse (s : String) : Option Json :=
  match parseJsonValue (s.length + 2) s.data with
  | some (v, rest) => if skipWs rest = [] then some v else none
  | none => none

/-- A received HTTP response: `ok` (status in 2xx), numeric status, body
text (the empty string for a body-less response). -/
structure HttpResponse where
  ok : Bool
  status : Nat
  bodyText : String
  deriving Repr, DecidableEq

/-- How the `fetch` inside `request` resolves: a response, rejection with
`AbortError` (the timeout fired), or another rejection (network error). -/
inductive FetchOutcome where
  | response (r : HttpResponse)
  | abortError
  | otherError (e : JsError)

/-- JavaScript `options.timeout || 30000` (`0` is falsy). -/
def jsOrElseNat (v : Option Nat) (d : Nat) : Nat :=
  match v with
  | none => d
  | some x => if x = 0 then d else x

/-- The response handling of `OutSystemsApiClient.request`
(`src/utils/apiClient.ts` lines 65-83): a non-ok response throws
`ApiError(status, endpoint, body)`; an ok response is answered with
`await response.json()`, whose rejection on a non-JSON (e.g. empty) body
is a `SyntaxError`, rethrown unchanged by the catch block (its `name` is
not `'AbortError'`). An `AbortError` rejection of `fetch` itself becomes
`TimeoutError(endpoint, timeout)`. -/
def OutSystemsApiClient.request (endpoint : String) (timeoutOpt : Option Nat)
    (outcome : FetchOutcome) : Except JsError Json :=
  let timeout := jsOrElseNat timeoutOpt 30000
  match outcome with
  | .abortError => .error (.timeoutError endpoint timeout)
  | .otherError e => .error e
  | .response r =>
      if !r.ok then .error (.apiError r.status endpoint r.bodyText)
      else
        match jsonParse r.bodyText with
        | some v => .ok v
        | none => .error .jsonParseError

/-! ## Helper lemmas about the poll engine -/

/-- Each iteration of the poll loop makes exactly one `pollFn()` call, so
the loop makes at most `fuel` calls. -/
lemma pollGo_calls_length_le {T : Type} (p : Nat → T) (c f : T → Bool) (M : ℚ) :
    ∀ fuel a i, (pollGo p c f M fuel a i).calls.length ≤ fuel := by
  intro fuel
  induction fuel with
  | zero => intro a i; simp [pollGo]
  | succ n ih =>
      intro a i
      simp only [pollGo]
      cases hc : c (p a) with
      | true => simp
      | false =>
          cases hf : f (p a) with
          | true => simp
          | false =>
              simpa using Nat.succ_le_succ (ih (a + 1) (min (i * (3 / 2)) M))

/-- The attempt indices at which `pollFn()` is called are consecutive,
starting at the initial counter: one call per iteration. -/
lemma pollGo_calls_eq_range {T : Type} (p : Nat → T) (c f : T → Bool) (M : ℚ) :
    ∀ fuel a i, (pollGo p c f M fuel a i).calls =
      (List.range (pollGo p c f M fuel a i).calls.length).map (a + ·) := by
  intro fuel
  induction fuel with
  | zero => intro a i; simp [pollGo]
  | succ n ih =>
      intro a i
      simp only [pollGo]
      cases hc : c (p a) with
      | true => simp [List.range_succ]
      | false =>
          cases hf : f (p a) with
          | true => simp [List.range_succ]
          | false =>
              have hrec := ih (a + 1) (min (i * (3 / 2)) M)
              simp only [if_neg Bool.false_ne_true]
              rw [List.length_cons, List.range_succ_eq_map, List.map_cons,
                List.map_map]
              refine congrArg₂ List.cons (by omega) ?_
              conv_lhs => rw [hrec]
              exact List.map_congr_left fun k _ => by
                simp only [Function.comp_apply]
                omega

/-- A success outcome is a snapshot on which the success predicate fired. -/
lemma pollGo_success {T : Type} (p : Nat → T) (c f : T → Bool) (M : ℚ) :
    ∀ fuel a i r, (pollGo p c f M fuel a i).outcome = .success r →
      c r = true := by
  intro fuel
  induction fuel with
  | zero => intro a i r h; simp [pollGo] at h
  | succ n ih =>
      intro a i r h
      simp only [pollGo] at h
      cases hc : c (p a) with
      | true => simp [hc] at h; exact h ▸ hc
      | false =>
          cases hf : f (p a) with
          | true => simp [hc, hf] at h
          | false =>
              simp [hc, hf] at h
              exact ih _ _ _ h

/-- A failure outcome is a snapshot on which the success predicate did NOT
fire (success is checked first) and the failure predicate did. -/
lemma pollGo_failure {T : Type} (p : Nat → T) (c f : T → Bool) (M : ℚ) :
    ∀ fuel a i r, (pollGo p c f M fuel a i).outcome = .failure r →
      c r = false ∧ f r = true := by
  intro fuel
  induction fuel with
  | zero => intro a i r h; simp [pollGo] at h
  | succ n ih =>
      intro a i r h
      simp only [pollGo] at h
      cases hc : c (p a) with
      | true => simp [hc] at h
      | false =>
          cases hf : f (p a) with
          | true =>
              simp [hc, hf] at h
              exact ⟨h ▸ hc, h ▸ hf⟩
          | false =>
              simp [hc, hf] at h
              exact ih _ _ _ h

/-- Key algebraic step: one application of the interval update
`x ↦ min (x * 3/2) M`, followed by `k` more inside the `min`-capped closed
form, equals the closed form at exponent `k + 1` (for `0 ≤ i ≤ M`). -/
lemma min_backoff_step (i M : ℚ) (hi : 0 ≤ i) (hiM : i ≤ M) (k : ℕ) :
    min (min (i * (3 / 2)) M * (3 / 2) ^ k) M =
      min (i * (3 / 2) ^ (k + 1)) M := by
  have hM : (0 : ℚ) ≤ M := hi.trans hiM
  have hq : (0 : ℚ) ≤ (3 / 2) ^ k := by positivity
  have h1 : (1 : ℚ) ≤ (3 / 2) ^ k := by
    calc (1 : ℚ) = 1 ^ k := (one_pow k).symm
    _ ≤ (3 / 2) ^ k := by
        refine pow_le_pow_left₀ (by norm_num) (by norm_num) k
  rw [min_mul_of_nonneg _ _ hq, min_assoc]
  have hMM : min (M * (3 / 2) ^ k) M = M := by
    refine min_eq_right (le_mul_of_one_le_right hM h1)
  rw [hMM]
  ring_nf

/-- The sleep intervals of the poll loop, in closed form: when the loop
starts at interval `i` with `0 ≤ i ≤ M`, the `k`-th sleep is
`min (i * (3/2)^k) M`. -/
lemma pollGo_sleeps_closed {T : Type} (p : Nat → T) (c f : T → Bool) (M : ℚ) :
    ∀ fuel a i, 0 ≤ i → i ≤ M →
      (pollGo p c f M fuel a i).sleeps =
        (List.range (pollGo p c f M fuel a i).sleeps.length).map
          (fun k => min (i * (3 / 2) ^ k) M) := by
  intro fuel
  induction fuel with
  | zero => intro a i _ _; simp [pollGo]
  | succ n ih =>
      intro a i hi hiM
      simp only [pollGo]
      cases hc : c (p a) with
      | true => simp
      | false =>
          cases hf : f (p a) with
          | true => simp
          | false =>
              have hM : (0 : ℚ) ≤ M := hi.trans hiM
              have hi' : (0 : ℚ) ≤ min (i * (3 / 2)) M := by
                have : (0 : ℚ) ≤ i * (3 / 2) := by positivity
                exact le_min this hM
              have hrec := ih (a + 1) (min (i * (3 / 2)) M) hi' (min_le_right _ _)
              simp only [if_neg Bool.false_ne_true]
              rw [List.length_cons, List.range_succ_eq_map, List.map_cons,
                List.map_map]
              refine congrArg₂ List.cons ?_ ?_
              · rw [pow_zero, mul_one, min_eq_left hiM]
              · conv_lhs => rw [hrec]
                exact List.map_congr_left fun k _ => by
                  simp only [Function.comp_apply]
                  exact min_backoff_step i M hi hiM k

/-- The capped exponential-backoff schedule is monotone in the attempt
index (for a non-negative initial interval). -/
lemma backoff_schedule_monotone (i M : ℚ) (hi : 0 ≤ i) :
    Monotone fun k : ℕ => min (i * (3 / 2) ^ k) M := by
  refine Monotone.min (fun a b hab => ?_) monotone_const
  exact mul_le_mul_of_nonneg_left (pow_le_pow_right₀ (by norm_num) hab) hi

/-- Mapping a monotone function over `List.range` yields a `≤`-pairwise
(non-decreasing) list. -/
lemma pairwise_le_map_range {α : Type*} [Preorder α] (g : ℕ → α)
    (hg : Monotone g) (n : ℕ) : ((List.range n).map g).Pairwise (· ≤ ·) := by
  rw [List.pairwise_map]
  exact (List.pairwise_lt_range n).imp fun h => hg h.le

/-- When neither predicate ever fires, the loop runs all `fuel` iterations
and exits with the timeout error carrying the final attempt counter. -/
lemma pollGo_exhausts {T : Type} (p : Nat → T) (c f : T → Bool) (M : ℚ)
    (hnone : ∀ k, c (p k) = false ∧ f (p k) = false) :
    ∀ fuel a i, (pollGo p c f M fuel a i).outcome = .timeout (a + fuel) ∧
      (pollGo p c f M fuel a i).calls.length = fuel := by
  intro fuel
  induction fuel with
  | zero => intro a i; simp [pollGo]
  | succ n ih =>
      intro a i
      have hc := (hnone a).1
      have hf := (hnone a).2
      simp only [pollGo, hc, hf, if_neg Bool.false_ne_true]
      obtain ⟨h1, h2⟩ := ih (a + 1) (min (i * (3 / 2)) M)
      refine ⟨?_, ?_⟩
      · rw [h1]; congr 1; omega
      · simp [h2]

/-! ## Helper lemmas about the retry engine -/

/-- When the operation fails on every attempt with a retryable error, the
loop runs all `fuel ≥ 1` iterations: one call per iteration, delay
`initialDelay * 2 ^ attempt` between consecutive attempts, and the error of
the last attempt is finally re-thrown. -/
lemma withRetryGo_all_retryable {T : Type} (err : Nat → JsError) (d : Nat)
    (hr : ∀ k, isNonRetryable (err k) = false) :
    ∀ fuel a le, 1 ≤ fuel →
      withRetryGo (T := T) (fun k => .error (err k)) d fuel a le =
        ⟨.error (some (err (a + fuel - 1))), fuel,
          (List.range (fuel - 1)).map fun k => d * 2 ^ (a + k)⟩ := by
  intro fuel
  induction fuel with
  | zero => intro a le h; omega
  | succ n ih =>
      intro a le _
      cases n with
      | zero => simp [withRetryGo, hr a]
      | succ m =>
          have hrec := ih (a + 1) (some (err a)) (by omega)
          conv_lhs => rw [withRetryGo]
          simp only [hr a, Bool.false_eq_true, if_false,
            if_neg (by omega : ¬ m + 1 = 0)]
          rw [hrec]
          simp only [RetryTrace.mk.injEq]
          refine ⟨by simp only [show a + 1 + (m + 1) - 1 = a + (m + 1 + 1) - 1
            from by omega], trivial, ?_⟩
          rw [show m + 1 + 1 - 1 = (m + 1 - 1) + 1 from by omega,
            List.range_succ_eq_map, List.map_cons, List.map_map]
          refine congrArg₂ List.cons (by rw [Nat.add_zero]) ?_
          exact List.map_congr_left fun k _ => by
            simp only [Function.comp_apply]
            exact congrArg (fun x => d * 2 ^ x) (by omega)

/-! ## Claim theorems -/

/-- C1 (amended): provided `0 ≤ initialInterval ≤ maxInterval` (true at
every call site and for the defaults), on each iteration `pollWithBackoff`
calls `poll()` exactly once, at consecutive attempt indices starting from 0;
a returned result satisfied the success predicate; a raised failure embeds a
snapshot on which the success predicate did NOT fire (success is checked
first) and the failure predicate did; the sleep performed after attempt `k`
equals `min (initialInterval * 1.5 ^ k) maxInterval`, hence the sleep
sequence is non-decreasing. Without the proviso the closed form and the
monotonicity fail (see the counterexample). -/
theorem pollWithBackoff_loop_spec {T : Type} (p : Nat → T) (c f : T → Bool)
    (opts : PollOptions) (h0 : 0 ≤ opts.initialInterval)
    (h1 : opts.initialInterval ≤ opts.maxInterval) :
    (pollWithBackoff p c f opts).calls =
      List.range (pollWithBackoff p c f opts).calls.length ∧
    (∀ r, (pollWithBackoff p c f opts).outcome = .success r → c r = true) ∧
    (∀ r, (pollWithBackoff p c f opts).outcome = .failure r →
      c r = false ∧ f r = true) ∧
    (pollWithBackoff p c f opts).sleeps =
      (List.range (pollWithBackoff p c f opts).sleeps.length).map
        (fun k => min (opts.initialInterval * (3 / 2) ^ k) opts.maxInterval) ∧
    (pollWithBackoff p c f opts).sleeps.Pairwise (· ≤ ·) := by
  have hsleeps := pollGo_sleeps_closed p c f opts.maxInterval
    opts.maxAttempts 0 opts.initialInterval h0 h1
  refine ⟨?_, fun r h => pollGo_success p c f _ _ _ _ r h,
    fun r h => pollGo_failure p c f _ _ _ _ r h, hsleeps, ?_⟩
  · have hcalls := pollGo_calls_eq_range p c f opts.maxInterval
      opts.maxAttempts 0 opts.initialInterval
    show (pollGo p c f opts.maxInterval opts.maxAttempts 0
      opts.initialInterval).calls = _
    conv_lhs => rw [hcalls]
    exact (List.map_congr_left fun k _ => Nat.zero_add k).trans
      (List.map_id _)
  · rw [show (pollWithBackoff p c f opts).sleeps =
      (pollGo p c f opts.maxInterval opts.maxAttempts 0
        opts.initialInterval).sleeps from rfl, hsleeps]
    exact pairwise_le_map_range _ (backoff_schedule_monotone _ _ h0) _

/-- C1 witness: a run with the in-code generation-poll parameters
(`initialInterval = 2000 ≤ maxInterval = 30000`) has its sleeps given by the
`min (2000 * 1.5^k) 30000` schedule; a run whose first snapshot satisfies
both predicates still yields the non-decreasing-sleeps conclusion. -/
theorem pollWithBackoff_loop_spec_witness :
    (pollWithBackoff (fun _ => (0 : Nat)) (fun _ => false) (fun _ => false)
      ⟨3, 2000, 30000⟩).sleeps =
      (List.range (pollWithBackoff (fun _ => (0 : Nat)) (fun _ => false)
        (fun _ => false) ⟨3, 2000, 30000⟩).sleeps.length).map
        (fun k => min ((2000 : ℚ) * (3 / 2) ^ k) 30000) ∧
    (pollWithBackoff (fun _ => (0 : Nat)) (fun _ => true) (fun _ => true)
      ⟨1, 2, 3⟩).sleeps.Pairwise (· ≤ ·) :=
  ⟨(pollWithBackoff_loop_spec (fun _ => (0 : Nat)) (fun _ => false)
      (fun _ => false) ⟨3, 2000, 30000⟩ (by norm_num) (by norm_num)).2.2.2.1,
   (pollWithBackoff_loop_spec (fun _ => (0 : Nat)) (fun _ => true)
      (fun _ => true) ⟨1, 2, 3⟩ (by norm_num) (by norm_num)).2.2.2.2⟩

/-- C1 counterexample: with `initialInterval = 4 > maxInterval = 1` and
predicates that never fire, the sleeps are `[4, 1]`: the first sleep is `4`,
not `min (4 * 1.5^0) 1 = 1`, and the sequence decreases — so the claim's
unconditional interval formula and its non-decreasingness are false. -/
theorem pollWithBackoff_interval_formula_cex :
    (pollWithBackoff (fun _ => (0 : Nat)) (fun _ => false) (fun _ => false)
      ⟨2, 4, 1⟩).sleeps = [4, 1] ∧
    ¬ (pollWithBackoff (fun _ => (0 : Nat)) (fun _ => false) (fun _ => false)
      ⟨2, 4, 1⟩).sleeps.Pairwise (· ≤ ·) ∧
    min ((4 : ℚ) * (3 / 2) ^ (0 : ℕ)) 1 ≠ 4 := by
  have hs : (pollWithBackoff (fun _ => (0 : Nat)) (fun _ => false)
      (fun _ => false) ⟨2, 4, 1⟩).sleeps = [4, 1] := by
    show (pollGo (fun _ => (0 : Nat)) (fun _ => false) (fun _ => false)
      1 2 0 4).sleeps = [4, 1]
    norm_num [pollGo, min_def]
  refine ⟨hs, ?_, by norm_num⟩
  rw [hs]
  simp only [List.pairwise_cons, List.mem_singleton, List.Pairwise.nil,
    forall_eq, List.not_mem_nil, false_implies, and_true, not_and]
  intro h
  norm_num at h

/-- C2: `pollWithBackoff` never makes more than `maxAttempts` calls to
`poll()`, and when neither predicate ever fires it exits after exactly
`maxAttempts` calls with the timeout error whose message
(`Polling timeout after N attempts`) names the attempt count. -/
theorem pollWithBackoff_attempt_bound {T : Type} (p : Nat → T)
    (c f : T → Bool) (opts : PollOptions) (stringify : T → String) :
    (pollWithBackoff p c f opts).calls.length ≤ opts.maxAttempts ∧
    ((∀ k, c (p k) = false ∧ f (p k) = false) →
      (pollWithBackoff p c f opts).outcome = .timeout opts.maxAttempts ∧
      (pollWithBackoff p c f opts).calls.length = opts.maxAttempts ∧
      ((pollWithBackoff p c f opts).outcome).thrownErrorMessage stringify =
        some ("Polling timeout after " ++ toString opts.maxAttempts
          ++ " attempts")) := by
  refine ⟨pollGo_calls_length_le p c f _ _ _ _, fun hnone => ?_⟩
  obtain ⟨h1, h2⟩ := pollGo_exhausts p c f opts.maxInterval hnone
    opts.maxAttempts 0 opts.initialInterval
  rw [Nat.zero_add] at h1
  refine ⟨h1, h2, ?_⟩
  rw [show (pollWithBackoff p c f opts).outcome =
    (pollGo p c f opts.maxInterval opts.maxAttempts 0
      opts.initialInterval).outcome from rfl, h1]
  rfl

/-- C2 witness: a 2-attempt run whose predicates never fire makes exactly 2
poll calls and times out with the error naming 2 attempts. -/
theorem pollWithBackoff_attempt_bound_witness :
    (pollWithBackoff (fun _ => (0 : Nat)) (fun _ => false) (fun _ => false)
      ⟨2, 2000, 30000⟩).outcome = .timeout 2 ∧
    (pollWithBackoff (fun _ => (0 : Nat)) (fun _ => false) (fun _ => false)
      ⟨2, 2000, 30000⟩).calls.length = 2 :=
  have h := (pollWithBackoff_attempt_bound (fun _ => (0 : Nat))
    (fun _ => false) (fun _ => false) ⟨2, 2000, 30000⟩
    (fun _ => "")).2 (fun _ => ⟨rfl, rfl⟩)
  ⟨h.1, h.2.1⟩

/-- C3: for an operation that fails on every attempt with a retryable error
(timeout, network error, 5xx or 429 `ApiError`) and `maxAttempts ≥ 1`,
`withRetry` invokes the operation exactly `maxAttempts` times, waits
`initialDelay * 2 ^ k` before retry `k` (0-indexed) — a non-decreasing
delay sequence — and finally re-raises the last observed error unchanged. -/
theorem withRetry_retryable_exhausts {T : Type} (err : Nat → JsError)
    (m : Int) (d : Nat) (hm : 1 ≤ m)
    (hr : ∀ k, isNonRetryable (err k) = false) :
    withRetry (T := T) (fun k => .error (err k)) m d =
      ⟨.error (some (err (m.toNat - 1))), m.toNat,
        (List.range (m.toNat - 1)).map fun k => d * 2 ^ k⟩ ∧
    ((List.range (m.toNat - 1)).map fun k => d * 2 ^ k).Pairwise (· ≤ ·) := by
  constructor
  · have h := withRetryGo_all_retryable (T := T) err d hr m.toNat 0 none
      (by omega)
    rw [withRetry, h]
    simp only [Nat.zero_add]
  · refine pairwise_le_map_range _ (fun a b hab => ?_) _
    exact Nat.mul_le_mul (le_refl d) (Nat.pow_le_pow_right (by norm_num) hab)

/-- C3 witness: an operation always failing with a (retryable) timeout
under `withRetry(·, 3, 1000)` is invoked 3 times, with delays
`[1000, 2000]`, and the last timeout error is re-raised. -/
theorem withRetry_retryable_exhausts_witness :
    withRetry (T := Unit)
        (fun _ => .error (.timeoutError "/status" 15000)) 3 1000 =
      ⟨.error (some (.timeoutError "/status" 15000)), 3, [1000, 2000]⟩ := by
  have h := (withRetry_retryable_exhausts (T := Unit)
    (fun _ => .timeoutError "/status" 15000) 3 1000 (by norm_num)
    (fun _ => rfl)).1
  rw [h]
  rfl

/-- C4 (amended): for an operation whose first invocation fails with an
`ApiError` with status in `[400, 500)` other than 429, and any
`maxAttempts ≥ 1`, `withRetry` invokes the operation exactly once and
re-raises that `ApiError` with no delay. (At `maxAttempts = 0` the
operation is not invoked at all — see the counterexample and C10.) -/
theorem withRetry_nonretryable_single_attempt {T : Type}
    (fn : Nat → Except JsError T) (s : Nat) (ep b : String) (m : Int)
    (d : Nat) (hm : 1 ≤ m) (hfn : fn 0 = .error (.apiError s ep b))
    (h4 : 400 ≤ s) (h5 : s < 500) (h6 : s ≠ 429) :
    withRetry fn m d = ⟨.error (some (.apiError s ep b)), 1, []⟩ := by
  have hnr : isNonRetryable (.apiError s ep b) = true := by
    simp [isNonRetryable, h4, h5, h6]
  obtain ⟨n, hn⟩ : ∃ n, m.toNat = n + 1 := ⟨m.toNat - 1, by omega⟩
  rw [withRetry, hn]
  conv_lhs => rw [withRetryGo]
  simp [hfn, hnr]

/-- C4 witness: a 404 `ApiError` under `withRetry(·, 3, 1000)` is re-raised
after exactly one invocation with no delays. -/
theorem withRetry_nonretryable_single_attempt_witness :
    withRetry (T := Unit)
        (fun _ => .error (.apiError 404 "/api/v1/publications" "nf")) 3 1000 =
      ⟨.error (some (.apiError 404 "/api/v1/publications" "nf")), 1, []⟩ :=
  withRetry_nonretryable_single_attempt _ 404 "/api/v1/publications" "nf"
    3 1000 (by norm_num) rfl (by norm_num) (by norm_num) (by norm_num)

/-- C4 counterexample: at `maxAttempts = 0` the operation failing with a
non-retryable 404 is invoked 0 times, not "exactly once" — the claim's
"regardless of maxAttempts" fails for non-positive attempt counts. -/
theorem withRetry_nonretryable_zero_attempts_cex :
    (withRetry (T := Unit)
        (fun _ => .error (.apiError 404 "/api/v1/applications/a" "missing"))
        0 1000).calls = 0 ∧
    (withRetry (T := Unit)
        (fun _ => .error (.apiError 404 "/api/v1/applications/a" "missing"))
        0 1000).calls ≠ 1 :=
  have h : (withRetry (T := Unit)
      (fun _ => .error (.apiError 404 "/api/v1/applications/a" "missing"))
      0 1000).calls = 0 := rfl
  ⟨h, h ▸ by norm_num⟩

/-- C10: calling `withRetry` with `maxRetries ≤ 0` never invokes the
operation; the loop body never runs, so the final `throw lastError!` throws
the still-uninitialized `undefined` value (`Except.error none` in the
model), not an `Error` object. -/
theorem withRetry_nonpositive_never_invokes {T : Type}
    (fn : Nat → Except JsError T) (m : Int) (d : Nat) (hm : m ≤ 0) :
    withRetry fn m d = ⟨.error none, 0, []⟩ := by
  rw [withRetry, Int.toNat_of_nonpos hm]
  rfl

/-- C10 witness: `withRetry(·, -1, 1000)` of an operation that would
succeed still makes zero calls and throws the undefined value. -/
theorem withRetry_nonpositive_never_invokes_witness :
    withRetry (T := Unit) (fun _ => .ok ()) (-1) 1000 =
      ⟨.error none, 0, []⟩ :=
  withRetry_nonpositive_never_invokes _ (-1) 1000 (by norm_num)

/-- C5: a call of `getValidOutSystemsToken` with a cached token whose
expiry satisfies `now + 300 < expiresAt` returns the cached token with zero
exchanges and the cache untouched; any other call performs exactly one
exchange and, when the exchange succeeds, replaces the cache entry with the
new token and `absoluteExpiry = now + expiresIn` and returns the new
token. -/
theorem getValidOutSystemsToken_cache_spec (c : CachedToken) (now : Int)
    (ex : Except JsError TokenResponse) (r : TokenResponse) :
    (now + 300 < c.expiresAt →
      getValidOutSystemsToken (some c) now ex = ⟨.ok c.token, some c, 0⟩) ∧
    (¬ now + 300 < c.expiresAt → ex = .ok r →
      getValidOutSystemsToken (some c) now ex =
        ⟨.ok r.token, some ⟨r.token, now + r.expiresIn⟩, 1⟩) ∧
    (ex = .ok r → getValidOutSystemsToken none now ex =
        ⟨.ok r.token, some ⟨r.token, now + r.expiresIn⟩, 1⟩) ∧
    (¬ now + 300 < c.expiresAt →
      (getValidOutSystemsToken (some c) now ex).exchanges = 1) ∧
    (getValidOutSystemsToken none now ex).exchanges = 1 := by
  refine ⟨fun h => ?_, fun h hex => ?_, fun hex => ?_, fun h => ?_, ?_⟩
  · simp [getValidOutSystemsToken, TOKEN_EXPIRY_BUFFER_SECONDS, h]
  · simp [getValidOutSystemsToken, TOKEN_EXPIRY_BUFFER_SECONDS, h,
      tokenFetchNew, hex]
  · simp [getValidOutSystemsToken, tokenFetchNew, hex]
  · cases ex <;>
      simp [getValidOutSystemsToken, TOKEN_EXPIRY_BUFFER_SECONDS, h,
        tokenFetchNew]
  · cases ex <;> simp [getValidOutSystemsToken, tokenFetchNew]

/-- C5 witness: at `now = 500` a token expiring at `1000` is a cache hit
(`500 + 300 < 1000`) with zero exchanges; at `now = 900` the same token is
refreshed by exactly one exchange, re-cached with expiry `900 + 3600`, and
the new token is returned. -/
theorem getValidOutSystemsToken_cache_spec_witness :
    getValidOutSystemsToken (some ⟨"tok", 1000⟩) 500 (.ok ⟨"new", 3600⟩) =
      ⟨.ok "tok", some ⟨"tok", 1000⟩, 0⟩ ∧
    getValidOutSystemsToken (some ⟨"tok", 1000⟩) 900 (.ok ⟨"new", 3600⟩) =
      ⟨.ok "new", some ⟨"new", 900 + 3600⟩, 1⟩ :=
  ⟨(getValidOutSystemsToken_cache_spec ⟨"tok", 1000⟩ 500 _ ⟨"new", 3600⟩).1
      (by norm_num),
   (getValidOutSystemsToken_cache_spec ⟨"tok", 1000⟩ 900 _ ⟨"new", 3600⟩).2.1
      (by norm_num) rfl⟩

/-- C9: when the cache misses and the authentication exchange throws, the
error propagates to the caller and the cache slot is left exactly as it was
before the call (stale entry or absence preserved, no partial result). -/
theorem getValidOutSystemsToken_error_preserves_cache (c : CachedToken)
    (now : Int) (e : JsError) :
    (¬ now + 300 < c.expiresAt →
      getValidOutSystemsToken (some c) now (.error e) =
        ⟨.error e, some c, 1⟩) ∧
    getValidOutSystemsToken none now (.error e) = ⟨.error e, none, 1⟩ := by
  constructor
  · intro h
    simp [getValidOutSystemsToken, TOKEN_EXPIRY_BUFFER_SECONDS, h,
      tokenFetchNew]
  · simp [getValidOutSystemsToken, tokenFetchNew]

/-- C9 witness: a failing exchange at `now = 900` with a token expired for
the buffer leaves the stale entry in place and re-raises the error. -/
theorem getValidOutSystemsToken_error_preserves_cache_witness :
    getValidOutSystemsToken (some ⟨"tok", 1000⟩) 900
        (.error (.genericError "OutSystems authentication failed.")) =
      ⟨.error (.genericError "OutSystems authentication failed."),
        some ⟨"tok", 1000⟩, 1⟩ :=
  (getValidOutSystemsToken_error_preserves_cache ⟨"tok", 1000⟩ 900 _).1
    (by norm_num)

/-- C6 (amended): any step failure aborts the whole exchange and the cause
is logged internally; the Node implementation raises the fixed generic
`"OutSystems authentication failed."` error, with the cause never appearing
in the raised error — but the Cloudflare-Workers variant raises
`"OutSystems authentication failed: " ++ error.message`, so in that variant
the underlying cause's message does appear in the raised error. -/
theorem getOutsystemsToken_failure_handling (env : AuthEnv)
    (wenv : WorkerAuthEnv) (e e' : JsError) :
    (getOutsystemsTokenSteps env = .error e →
      getOutsystemsToken env =
        ⟨.error (.genericError "OutSystems authentication failed."),
          some e⟩) ∧
    (getOutsystemsTokenWorkerSteps wenv = .error e' →
      getOutsystemsTokenWorker wenv =
        ⟨.error (.genericError
          ("OutSystems authentication failed: " ++ e'.message)), some e'⟩) := by
  constructor
  · intro h; simp [getOutsystemsToken, h]
  · intro h; simp [getOutsystemsTokenWorker, h]

/-- C6 witness: a Node-variant exchange whose OIDC discovery fails raises
exactly the generic error with the cause only in the log slot; a Workers
variant failure appends the cause's message. -/
theorem getOutsystemsToken_failure_handling_witness :
    getOutsystemsToken
      { oidcConfig := .error (.genericError "connect ECONNREFUSED")
      , authPage := .ok (some "st", some "kc", some "pool")
      , haveEnvVars := true
      , cognito := .ok ("id", "ac", "rf")
      , storeToken := .ok "code"
      , keycloak := .ok (some "final")
      , tokenEndpoint := .ok ("tk", some 3600) } =
      ⟨.error (.genericError "OutSystems authentication failed."),
        some (.genericError "connect ECONNREFUSED")⟩ :=
  (getOutsystemsToken_failure_handling
    { oidcConfig := .error (.genericError "connect ECONNREFUSED")
    , authPage := .ok (some "st", some "kc", some "pool")
    , haveEnvVars := true
    , cognito := .ok ("id", "ac", "rf")
    , storeToken := .ok "code"
    , keycloak := .ok (some "final")
    , tokenEndpoint := .ok ("tk", some 3600) }
    { oidcConfig := .ok ("a", "t")
    , authPage := .ok (some "st", some "kc", some "pool")
    , cognitoTenantConfig := .ok ()
    , cognitoAuth := .ok ⟨true, "OK", some ("i", "a", "r")⟩
    , storeToken := .ok "code"
    , keycloak := .ok (some (some "final"))
    , tokenEndpoint := .ok ("tk", some 3600) }
    (.genericError "connect ECONNREFUSED") (.genericError "x")).1 rfl

/-- C6 counterexample: in the Workers variant, a Cognito InitiateAuth
response with `ok = false` and `statusText = "Forbidden"` makes
`getOutsystemsToken` raise
`"OutSystems authentication failed: Cognito authentication failed:
Forbidden"` — the identity system's diagnostic appears in the raised error,
which is therefore not the single generic message the claim requires. -/
theorem getOutsystemsToken_worker_leak_cex :
    (getOutsystemsTokenWorker
      { oidcConfig := .ok ("https://h/auth", "https://h/token")
      , authPage := .ok (some "st", some "https://h/kc", some "pool")
      , cognitoTenantConfig := .ok ()
      , cognitoAuth := .ok ⟨false, "Forbidden", none⟩
      , storeToken := .ok "ac"
      , keycloak := .ok (some (some "fc"))
      , tokenEndpoint := .ok ("tk", some 3600) }).result =
      .error (.genericError
        "OutSystems authentication failed: Cognito authentication failed: Forbidden") ∧
    "OutSystems authentication failed: Cognito authentication failed: Forbidden" ≠
      "OutSystems authentication failed." :=
  ⟨rfl, by decide⟩

/-- C7: the final progress string `createAndDeployApp` emits on a failure
(`❌ ` followed by `sanitizeErrorMessage`) is chosen by error category only
— timeout, 401/403, 429, 5xx, other `ApiError`, anything else — and is
always drawn from the fixed six-element set `finalErrorYields`; it is a
constant per category, independent of the error's endpoint, body and
message, so raw status codes, response bodies and internal URLs never reach
it. -/
theorem createAndDeployApp_final_error_spec :
    (∀ ep t, createAndDeployAppErrorYield (.timeoutError ep t) =
      "❌ The request timed out. Please try again.") ∧
    (∀ ep b, createAndDeployAppErrorYield (.apiError 401 ep b) =
        "❌ Authentication failed. Please check your credentials." ∧
      createAndDeployAppErrorYield (.apiError 403 ep b) =
        "❌ Authentication failed. Please check your credentials.") ∧
    (∀ ep b, createAndDeployAppErrorYield (.apiError 429 ep b) =
      "❌ Rate limit exceeded. Please try again in a few moments.") ∧
    (∀ s ep b, 500 ≤ s → createAndDeployAppErrorYield (.apiError s ep b) =
      "❌ The service is temporarily unavailable. Please try again later.") ∧
    (∀ s ep b, s < 500 → s ≠ 401 → s ≠ 403 → s ≠ 429 →
      createAndDeployAppErrorYield (.apiError s ep b) =
      "❌ An error occurred while processing your request. Please try again.") ∧
    (∀ m, createAndDeployAppErrorYield (.genericError m) =
      "❌ An unexpected error occurred. Please try again.") ∧
    (∀ e, createAndDeployAppErrorYield e ∈ finalErrorYields) := by
  refine ⟨fun ep t => rfl, fun ep b => ⟨rfl, rfl⟩, fun ep b => rfl,
    fun s ep b h => ?_, fun s ep b h h1 h2 h3 => ?_, fun m => rfl, fun e => ?_⟩
  · have hn1 : ¬ (s = 401 ∨ s = 403) := by omega
    have hn2 : ¬ s = 429 := by omega
    simp [createAndDeployAppErrorYield, sanitizeErrorMessage, hn1, hn2, h]
  · have hn1 : ¬ (s = 401 ∨ s = 403) := by omega
    have hn3 : ¬ 500 ≤ s := by omega
    simp [createAndDeployAppErrorYield, sanitizeErrorMessage, hn1, h1, h2, h3,
      hn3]
  · cases e with
    | apiError s ep b =>
        by_cases h1 : s = 401 ∨ s = 403
        · simp only [createAndDeployAppErrorYield, sanitizeErrorMessage,
            if_pos h1]
          decide
        · by_cases h2 : s = 429
          · simp only [createAndDeployAppErrorYield, sanitizeErrorMessage,
              if_neg h1, if_pos h2]
            decide
          · by_cases h3 : 500 ≤ s
            · simp only [createAndDeployAppErrorYield, sanitizeErrorMessage,
                if_neg h1, if_neg h2, if_pos h3]
              decide
            · simp only [createAndDeployAppErrorYield, sanitizeErrorMessage,
                if_neg h1, if_neg h2, if_neg h3]
              decide
    | timeoutError ep t =>
        have h : createAndDeployAppErrorYield (.timeoutError ep t) =
          "❌ The request timed out. Please try again." := rfl
        rw [h]; decide
    | jsonParseError => decide
    | genericError m =>
        have h : createAndDeployAppErrorYield (.genericError m) =
          "❌ An unexpected error occurred. Please try again." := rfl
        rw [h]; decide

/-- C7 witness: a 503 maps to the service-unavailable message and a 404 to
the generic request-error message, regardless of endpoint and body. -/
theorem createAndDeployApp_final_error_spec_witness :
    createAndDeployAppErrorYield (.apiError 503 "/api/v1/publications" "e") =
      "❌ The service is temporarily unavailable. Please try again later." ∧
    createAndDeployAppErrorYield (.apiError 404 "/api/v1/applications/x" "n") =
      "❌ An error occurred while processing your request. Please try again." :=
  ⟨createAndDeployApp_final_error_spec.2.2.2.1 503 "/api/v1/publications" "e"
      (by norm_num),
   createAndDeployApp_final_error_spec.2.2.2.2.1 404 "/api/v1/applications/x"
      "n" (by norm_num) (by norm_num) (by norm_num) (by norm_num)⟩

/-- C8 evidence (code bug): `request` answers a 2xx response by
unconditionally awaiting `response.json()`, so a body-less (empty-body)
2xx response — e.g. the 204 answering the generation-trigger POST — makes
the call raise the JSON `SyntaxError` instead of returning an empty/void
result; a 2xx response with a JSON body parses and returns it. -/
theorem request_bodyless_success_raises :
    OutSystemsApiClient.request
        "/api/app-generation/v1alpha3/jobs/j1/generation" (some 30000)
        (.response ⟨true, 204, ""⟩) = .error .jsonParseError ∧
    OutSystemsApiClient.request "/api/app-generation/v1alpha3/jobs"
        (some 30000) (.response ⟨true, 200, "\x7b\"key\":\"j1\"\x7d"⟩) =
      .ok (.obj [("key", .str "j1")]) := by
  constructor
  · rfl
  · rfl
